import Mathlib

/-!
Shallow embedding of `src/app/events/[id]/page.tsx`: the event detail page
of the ministry events website. JavaScript optional fields become `Option`,
JS string truthiness (`undefined` and `""` are falsy) becomes `jsTruthyStr`,
thrown exceptions of the content collaborator become `Except.error`, and the
opaque external collaborators (`contentfulService.getEventById`,
`getRelativeTime`) become function parameters.
-/

namespace EventsPage

/-- JS `s.startsWith(p)`: `p` is a prefix of `s`, on the character sequence. -/
def jsStartsWith (s p : String) : Bool :=
  List.isPrefixOf p.data s.data

/-- JS truthiness of a `string | undefined` value: `undefined` and `""` are falsy. -/
def jsTruthyStr : Option String → Bool
  | none => false
  | some s => s != ""

/-- JS `a || b` where `a : string | undefined` and `b` is a string. -/
def jsOrStr (a : Option String) (b : String) : String :=
  if jsTruthyStr a then a.getD b else b

/-- JS `a || b` where both operands are `string | undefined`. -/
def jsOrOpt (a b : Option String) : Option String :=
  if jsTruthyStr a then a else b

/-- The `file` object of a Contentful asset: `{ url }`. -/
structure FileRef where
  url : Option String
deriving DecidableEq, Repr

/-- The `fields` object of a Contentful asset: `{ file }`. -/
structure ImageFields where
  file : Option FileRef
deriving DecidableEq, Repr

/-- A Contentful asset reference as dereferenced by `imageField?.fields?.file?.url`. -/
structure ImageRef where
  fields : Option ImageFields
deriving DecidableEq, Repr

/-- The `fields` object of a ministry entry: `{ ministryName }`. -/
structure MinistryFields where
  ministryName : Option String
deriving DecidableEq, Repr

/-- A ministry entry reference as dereferenced by `ministry?.fields?.ministryName`. -/
structure Ministry where
  fields : Option MinistryFields
deriving DecidableEq, Repr

/-- `sys` metadata of a Contentful entry. -/
structure Sys where
  id : String
deriving DecidableEq, Repr

/-- The `fields` of an `Events` entry, with every optional field an `Option`. -/
structure EventFields where
  eventName : Option String
  briefDescription : Option String
  fullDescription : Option String
  eventDate : Option String
  location : Option String
  contactPhoneNumber : Option String
  bannerImage : Option ImageRef
  ministry : Option Ministry
  firstSpeaker : Option String
  secondSpeaker : Option String
  firstSpeakerPicture : Option ImageRef
  secondSpeakerPicture : Option ImageRef
deriving DecidableEq, Repr

/-- A Contentful `Events` entry: `{ sys, fields }`. -/
structure Events where
  sys : Sys
  fields : EventFields
deriving DecidableEq, Repr

/-- The hardcoded Imo Economic Summit 2025 event record (`HARDCODED_EVENT_DATA`). -/
def HARDCODED_EVENT_DATA : Events :=
  { sys := { id := "imo-economic-summit-2025" }
    fields :=
      { eventName := some "Imo Economic Summit 2025"
        briefDescription := some "A powerful gathering of leaders, investors, and visionaries ready to unlock new opportunities for growth and innovation."
        fullDescription := some "## About the Summit\n\nOn December 4–5, Imo State will host a powerful gathering of leaders, investors, and visionaries ready to unlock new opportunities for growth and innovation.\n\nFrom digital transformation to agriculture, education, energy, and youth empowerment, this summit is where ideas meet investment — and where the future of Imo\x27s economy takes shape.\n\n## Key Focus Areas\n\n- **Digital Transformation**: Leveraging technology for economic growth\n- **Agriculture**: Modernizing farming and agribusiness\n- **Education**: Building skills for tomorrow\x27s workforce\n- **Energy**: Sustainable power solutions\n- **Youth Empowerment**: Creating opportunities for the next generation\n\n## Contact Information\n\nFor more information, please contact us at info@imoeconomicsummit.com\n\nLet\x27s shape Imo\x27s tomorrow, together. 💪"
        eventDate := some "2025-12-04T09:00:00.000Z"
        location := some "Owerri, Imo State"
        contactPhoneNumber := some "+234 803 610 1044"
        bannerImage := some { fields := some { file := some { url := some "/event-imo.jpeg" } } }
        ministry := some { fields := some { ministryName := some "Ministry of Lands, Survey and Planning" } }
        firstSpeaker := none
        secondSpeaker := none
        firstSpeakerPicture := none
        secondSpeakerPicture := none } }

/-- The optional-chaining dereference `imageField?.fields?.file?.url`. -/
def imageUrlOf (imageField : Option ImageRef) : Option String :=
  ((imageField.bind ImageRef.fields).bind ImageFields.file).bind FileRef.url

/-- `buildImageUrl`: returns the url verbatim when it is truthy and starts with a
single slash (not `//`); otherwise prefixes a truthy url with `https:`;
otherwise `null`. -/
def buildImageUrl (imageField : Option ImageRef) : Option String :=
  let url := imageUrlOf imageField
  if jsTruthyStr url && jsStartsWith (url.getD "") "/" && !(jsStartsWith (url.getD "") "//") then
    url
  else if jsTruthyStr url then some ("https:" ++ url.getD "") else none

/-- The sentinel identifier checked by `getEventData`. -/
def sentinelId : String := "imo-economic-summit-2025"

/-- `getEventData`, instrumented: returns the fetched event (or `none`) together
with a flag recording whether the external collaborator `getEventById` was
invoked. The collaborator is a parameter: it may return an event, return
`null`, or throw (`Except.error`). -/
def getEventDataT (lookup : String → Except String (Option Events)) (id : String) :
    Option Events × Bool :=
  if id = sentinelId then
    (some HARDCODED_EVENT_DATA, false)
  else
    match lookup id with
    | Except.ok ev => (ev, true)
    | Except.error _ => (none, true)

/-- `getEventData` as the page observes it: the returned event or `null`. -/
def getEventData (lookup : String → Except String (Option Events)) (id : String) :
    Option Events :=
  (getEventDataT lookup id).1

/-- One entry of the `details` array in `EventDetails`, before filtering. -/
structure Detail where
  label : String
  value : Option String
  shown : Bool
deriving DecidableEq, Repr

/-- The unfiltered `details` array of `EventDetails`. `relTime` embeds the
external `getRelativeTime` helper. -/
def detailCandidates (relTime : Option String → String) (e : Events) : List Detail :=
  [ { label := "DATE:", value := some (relTime e.fields.eventDate), shown := true }
  , { label := "PHONE:", value := e.fields.contactPhoneNumber
    , shown := jsTruthyStr e.fields.contactPhoneNumber }
  , { label := "LOCATION:", value := e.fields.location
    , shown := jsTruthyStr e.fields.location }
  , { label := "ORGANIZER:"
    , value := some (jsOrStr ((e.fields.ministry.bind Ministry.fields).bind
        MinistryFields.ministryName) "Ministry")
    , shown := e.fields.ministry.isSome } ]

/-- The detail rows `EventDetails` actually renders: `details.filter(d => d.show)`. -/
def detailRows (relTime : Option String → String) (e : Events) : List Detail :=
  (detailCandidates relTime e).filter Detail.shown

/-- One entry of the `speakers` array in `SpeakersSection`, before filtering. -/
structure Speaker where
  name : Option String
  imageUrl : Option String
  shown : Bool
deriving DecidableEq, Repr

/-- The unfiltered `speakers` array of `SpeakersSection`. -/
def speakerCandidates (e : Events) : List Speaker :=
  [ { name := e.fields.firstSpeaker
    , imageUrl := buildImageUrl e.fields.firstSpeakerPicture
    , shown := jsTruthyStr e.fields.firstSpeaker }
  , { name := e.fields.secondSpeaker
    , imageUrl := buildImageUrl e.fields.secondSpeakerPicture
    , shown := jsTruthyStr e.fields.secondSpeaker } ]

/-- The speaker cards that survive `speakers.filter(s => s.show)`. -/
def speakersShown (e : Events) : List Speaker :=
  (speakerCandidates e).filter Speaker.shown

/-- `SpeakersSection`: renders `none` (nothing) when no speaker survives the
filter, otherwise the list of speaker cards. -/
def speakersSection (e : Events) : Option (List Speaker) :=
  if (speakersShown e).length = 0 then none else some (speakersShown e)

/-- The fallback hero image path of `EventContent`. -/
def heroFallback : String := "/hero_section.png"

/-- `EventContent`: `buildImageUrl(event.fields.bannerImage) || "/hero_section.png"`. -/
def bannerImageUrl (e : Events) : String :=
  jsOrStr (buildImageUrl e.fields.bannerImage) heroFallback

/-- Guard of the standalone event-image section:
`bannerImageUrl && bannerImageUrl !== "/hero_section.png"`. -/
def showEventImageSection (e : Events) : Bool :=
  (bannerImageUrl e != "") && (bannerImageUrl e != heroFallback)

/-- The `searchParams.id` value: `string | string[] | undefined`. -/
inductive SearchParamValue where
  | undef : SearchParamValue
  | str : String → SearchParamValue
  | arr : List String → SearchParamValue
deriving DecidableEq, Repr

/-- `eventIdFromSearch`: a string is taken as is, an array contributes its first
element (`undefined` when empty), otherwise `undefined`. -/
def eventIdFromSearch : SearchParamValue → Option String
  | SearchParamValue.undef => none
  | SearchParamValue.str s => some s
  | SearchParamValue.arr l => l.head?

/-- `actualEventId = eventIdFromSearch || eventIdFromParams`. The path segment
id is modelled as `Option String` so that its absence is expressible. -/
def actualEventId (pathId : Option String) (search : SearchParamValue) : Option String :=
  jsOrOpt (eventIdFromSearch search) pathId

/-- The rendered outcome of the page: the not-found page or the event content. -/
inductive PageResult where
  | notFoundPage : PageResult
  | content : Events → PageResult
deriving DecidableEq, Repr

/-- One run of `EventDetailPage`, instrumented with whether `getEventData` was
invoked, whether the external collaborator was invoked, and the id handed to
`getEventData` (if any). -/
structure PageRun where
  result : PageResult
  loaderInvoked : Bool
  lookupInvoked : Bool
  loaderArg : Option String
deriving DecidableEq, Repr

/-- `EventDetailPage`: resolves the id (query wins when truthy), renders
not-found when the id is falsy or the loader yields `null`, else the content. -/
def eventDetailPage (lookup : String → Except String (Option Events))
    (pathId : Option String) (search : SearchParamValue) : PageRun :=
  let actual := actualEventId pathId search
  if jsTruthyStr actual then
    match getEventDataT lookup (actual.getD "") with
    | (some ev, invoked) =>
        { result := PageResult.content ev, loaderInvoked := true
          lookupInvoked := invoked, loaderArg := some (actual.getD "") }
    | (none, invoked) =>
        { result := PageResult.notFoundPage, loaderInvoked := true
          lookupInvoked := invoked, loaderArg := some (actual.getD "") }
  else
    { result := PageResult.notFoundPage, loaderInvoked := false
      lookupInvoked := false, loaderArg := none }

/-- Helper: build an image reference whose `fields.file.url` is `u`. -/
def mkRef (u : String) : Option ImageRef :=
  some { fields := some { file := some { url := some u } } }

/-- An event record with every optional field absent, for concrete instantiations. -/
def emptyEvent : Events :=
  { sys := { id := "e" }
    fields :=
      { eventName := none, briefDescription := none, fullDescription := none
        eventDate := none, location := none, contactPhoneNumber := none
        bannerImage := none, ministry := none
        firstSpeaker := none, secondSpeaker := none
        firstSpeakerPicture := none, secondSpeakerPicture := none } }

/-- An event whose ministry reference is present but carries no `ministryName`. -/
def ministryOnlyEvent : Events :=
  { emptyEvent with
    fields := { emptyEvent.fields with ministry := some { fields := none } } }

/-- C1: for a present (truthy) url starting with a single slash and not a double
slash, `buildImageUrl` returns the url unchanged; for any other present url it
returns the url with the `https:` scheme prefixed; for an absent reference or
absent (falsy) url it returns `null`. -/
theorem buildImageUrl_resolution (ref : Option ImageRef) :
    (∀ u : String, imageUrlOf ref = some u → u ≠ "" →
      jsStartsWith u "/" = true → jsStartsWith u "//" = false →
      buildImageUrl ref = some u) ∧
    (∀ u : String, imageUrlOf ref = some u → u ≠ "" →
      (jsStartsWith u "/" = false ∨ jsStartsWith u "//" = true) →
      buildImageUrl ref = some ("https:" ++ u)) ∧
    ((imageUrlOf ref = none ∨ imageUrlOf ref = some "") → buildImageUrl ref = none) := by
  refine ⟨?_, ?_, ?_⟩
  · intro u h hu h1 h2
    simp [buildImageUrl, h, jsTruthyStr, hu, h1, h2]
  · intro u h hu h12
    rcases h12 with h1 | h2
    · simp [buildImageUrl, h, jsTruthyStr, hu, h1]
    · simp [buildImageUrl, h, jsTruthyStr, hu, h2]
  · intro h
    rcases h with h | h <;> simp [buildImageUrl, h, jsTruthyStr]

/-- C1 witness: a host-relative url is returned verbatim. -/
theorem buildImageUrl_resolution_witness :
    buildImageUrl (mkRef "/a.png") = some "/a.png" :=
  (buildImageUrl_resolution (mkRef "/a.png")).1 "/a.png" rfl (by decide) (by decide)
    (by decide)

/-- C2 counterexample: a protocol-relative url starts with `/`, yet it is not
returned unchanged: `buildImageUrl` prefixes it with `https:`. -/
theorem protocol_relative_url_changed :
    jsStartsWith "//images.ctfassets.net/pic.png" "/" = true ∧
    imageUrlOf (mkRef "//images.ctfassets.net/pic.png")
      = some "//images.ctfassets.net/pic.png" ∧
    buildImageUrl (mkRef "//images.ctfassets.net/pic.png")
      = some "https://images.ctfassets.net/pic.png" := by
  refine ⟨by decide, rfl, by decide⟩

/-- C2 (amended): a present url starting with `/` but not `//` is returned
unchanged; any other present (truthy) url — including protocol-relative `//`
urls — is prefixed with `https:`; an absent reference or falsy url yields
`null`. -/
theorem buildImageUrl_amended (ref : Option ImageRef) :
    (imageUrlOf ref = none → buildImageUrl ref = none) ∧
    (∀ u : String, imageUrlOf ref = some u →
      buildImageUrl ref =
        if u = "" then none
        else if jsStartsWith u "/" && !(jsStartsWith u "//") then some u
        else some ("https:" ++ u)) := by
  constructor
  · intro h
    simp [buildImageUrl, h, jsTruthyStr]
  · intro u h
    by_cases hu : u = ""
    · subst hu
      simp [buildImageUrl, h, jsTruthyStr]
    · cases h1 : jsStartsWith u "/" <;> cases h2 : jsStartsWith u "//" <;>
        simp [buildImageUrl, h, jsTruthyStr, hu, h1, h2]

/-- C2 amended witness: the protocol-relative branch evaluated concretely. -/
theorem buildImageUrl_amended_witness :
    buildImageUrl (mkRef "//assets.example/p.png") =
      (if ("//assets.example/p.png" : String) = "" then none
       else if jsStartsWith "//assets.example/p.png" "/"
           && !(jsStartsWith "//assets.example/p.png" "//") then
         some "//assets.example/p.png"
       else some ("https:" ++ "//assets.example/p.png")) :=
  (buildImageUrl_amended (mkRef "//assets.example/p.png")).2 "//assets.example/p.png" rfl

/-- C3: for the sentinel identifier, `getEventData` returns the built-in
hardcoded record and never invokes the external by-id lookup, no matter how the
collaborator would behave. -/
theorem sentinel_returns_hardcoded (lookup : String → Except String (Option Events)) :
    getEventDataT lookup sentinelId = (some HARDCODED_EVENT_DATA, false) := by
  simp [getEventDataT]

/-- C4: for a non-sentinel id, a lookup that throws makes `getEventData` return
`null` instead of propagating; the page then renders not-found, and its run is
indistinguishable from one where the lookup returns no record. -/
theorem lookup_failure_collapses (look1 look2 : String → Except String (Option Events))
    (id msg : String) (hid : id ≠ sentinelId)
    (herr : look1 id = Except.error msg)
    (hnone : look2 id = Except.ok none) :
    getEventData look1 id = none ∧
    (eventDetailPage look1 (some id) SearchParamValue.undef).result
      = PageResult.notFoundPage ∧
    eventDetailPage look1 (some id) SearchParamValue.undef
      = eventDetailPage look2 (some id) SearchParamValue.undef := by
  have hdata1 : getEventDataT look1 id = (none, true) := by
    simp [getEventDataT, hid, herr]
  have hdata2 : getEventDataT look2 id = (none, true) := by
    simp [getEventDataT, hid, hnone]
  refine ⟨by simp [getEventData, hdata1], ?_, ?_⟩ <;>
    by_cases hid0 : id = "" <;>
      simp [eventDetailPage, actualEventId, jsOrOpt, eventIdFromSearch, jsTruthyStr,
        hid0, hdata1, hdata2]

/-- C4 witness: a throwing lookup and an empty lookup on a concrete id. -/
theorem lookup_failure_collapses_witness :
    getEventData (fun _ => Except.error "network down") "some-other-event" = none ∧
    (eventDetailPage (fun _ => Except.error "network down") (some "some-other-event")
        SearchParamValue.undef).result = PageResult.notFoundPage ∧
    eventDetailPage (fun _ => Except.error "network down") (some "some-other-event")
        SearchParamValue.undef
      = eventDetailPage (fun _ => Except.ok none) (some "some-other-event")
        SearchParamValue.undef :=
  lookup_failure_collapses (fun _ => Except.error "network down")
    (fun _ => Except.ok none) "some-other-event" "network down" (by decide) rfl rfl

/-- C5: the rendered detail rows are exactly: a DATE row (always), a PHONE row
iff the phone is truthy, a LOCATION row iff the location is truthy, and an
ORGANIZER row iff the ministry reference is present — in that fixed order. -/
theorem detail_rows_exact (relTime : Option String → String) (e : Events) :
    detailRows relTime e =
      [{ label := "DATE:", value := some (relTime e.fields.eventDate), shown := true }]
      ++ (if jsTruthyStr e.fields.contactPhoneNumber then
            [{ label := "PHONE:", value := e.fields.contactPhoneNumber
             , shown := jsTruthyStr e.fields.contactPhoneNumber }] else [])
      ++ (if jsTruthyStr e.fields.location then
            [{ label := "LOCATION:", value := e.fields.location
             , shown := jsTruthyStr e.fields.location }] else [])
      ++ (if e.fields.ministry.isSome then
            [{ label := "ORGANIZER:"
             , value := some (jsOrStr ((e.fields.ministry.bind Ministry.fields).bind
                 MinistryFields.ministryName) "Ministry")
             , shown := e.fields.ministry.isSome }] else []) := by
  cases hp : jsTruthyStr e.fields.contactPhoneNumber <;>
    cases hl : jsTruthyStr e.fields.location <;>
      cases hm : e.fields.ministry.isSome <;>
        simp [detailRows, detailCandidates, List.filter, hp, hl, hm]

/-- C6: when a path id and a truthy query id are both present, the query id is
the event id the page resolves and hands to the event loader. -/
theorem query_id_takes_precedence (lookup : String → Except String (Option Events))
    (p s : String) (search : SearchParamValue)
    (hq : eventIdFromSearch search = some s) (hs : s ≠ "") :
    actualEventId (some p) search = some s ∧
    (eventDetailPage lookup (some p) search).loaderArg = some s := by
  have hact : actualEventId (some p) search = some s := by
    simp [actualEventId, jsOrOpt, hq, jsTruthyStr, hs]
  refine ⟨hact, ?_⟩
  cases hdata : getEventDataT lookup s with
  | mk ev invoked =>
      cases ev <;>
        simp [eventDetailPage, hact, hdata, jsTruthyStr, hs]

/-- C6 witness: a concrete page run where the query id overrides the path id. -/
theorem query_id_takes_precedence_witness :
    actualEventId (some "path-id") (SearchParamValue.str "query-id") = some "query-id" ∧
    (eventDetailPage (fun _ => Except.ok none) (some "path-id")
        (SearchParamValue.str "query-id")).loaderArg = some "query-id" :=
  query_id_takes_precedence (fun _ => Except.ok none) "path-id" "query-id"
    (SearchParamValue.str "query-id") rfl (by decide)

/-- C7: when both the path id and the query id are absent, the page renders
not-found without ever invoking the event loader or the collaborator. -/
theorem missing_ids_not_found (lookup : String → Except String (Option Events))
    (search : SearchParamValue) (hq : eventIdFromSearch search = none) :
    eventDetailPage lookup none search =
      { result := PageResult.notFoundPage, loaderInvoked := false
      , lookupInvoked := false, loaderArg := none } := by
  simp [eventDetailPage, actualEventId, jsOrOpt, hq, jsTruthyStr]

/-- C7 witness: the page run with no path id and an undefined query id. -/
theorem missing_ids_not_found_witness :
    eventDetailPage (fun _ => Except.ok none) none SearchParamValue.undef =
      { result := PageResult.notFoundPage, loaderInvoked := false
      , lookupInvoked := false, loaderArg := none } :=
  missing_ids_not_found (fun _ => Except.ok none) SearchParamValue.undef rfl

/-- C8: the speakers section shows at most two cards; the first (resp. second)
card appears iff the corresponding speaker name is truthy; with both names
absent the section renders nothing at all. -/
theorem speakers_section_exact (e : Events) :
    (speakersShown e).length ≤ 2 ∧
    speakersShown e =
      (if jsTruthyStr e.fields.firstSpeaker then
        [{ name := e.fields.firstSpeaker
         , imageUrl := buildImageUrl e.fields.firstSpeakerPicture
         , shown := jsTruthyStr e.fields.firstSpeaker }] else [])
      ++ (if jsTruthyStr e.fields.secondSpeaker then
        [{ name := e.fields.secondSpeaker
         , imageUrl := buildImageUrl e.fields.secondSpeakerPicture
         , shown := jsTruthyStr e.fields.secondSpeaker }] else []) ∧
    (speakersSection e = none ↔
      jsTruthyStr e.fields.firstSpeaker = false ∧
      jsTruthyStr e.fields.secondSpeaker = false) := by
  cases h1 : jsTruthyStr e.fields.firstSpeaker <;>
    cases h2 : jsTruthyStr e.fields.secondSpeaker <;>
      simp [speakersShown, speakerCandidates, speakersSection, List.filter, h1, h2]

/-- The fallback of `jsOrStr` is only taken literally or from a truthy operand,
so a non-empty fallback makes the result non-empty. -/
theorem jsOrStr_ne_empty (a : Option String) (b : String) (hb : b ≠ "") :
    jsOrStr a b ≠ "" := by
  unfold jsOrStr
  split
  · cases a with
    | none => simp [jsTruthyStr] at *
    | some s =>
        rename_i h
        simp [jsTruthyStr] at h
        simpa using h
  · exact hb

/-- The resolved banner url is never the empty string. -/
theorem bannerImageUrl_ne_empty (e : Events) : bannerImageUrl e ≠ "" :=
  jsOrStr_ne_empty _ _ (by decide)

/-- C9: an absent banner image reference resolves to the fixed fallback
`/hero_section.png` and suppresses the standalone event-image section; that
section renders exactly when the resolved banner url differs from the
fallback. -/
theorem banner_fallback_behaviour (e : Events) :
    (buildImageUrl e.fields.bannerImage = none →
      bannerImageUrl e = heroFallback ∧ showEventImageSection e = false) ∧
    (showEventImageSection e = true ↔ bannerImageUrl e ≠ heroFallback) := by
  constructor
  · intro h
    have hb : bannerImageUrl e = heroFallback := by
      simp [bannerImageUrl, jsOrStr, h, jsTruthyStr]
    exact ⟨hb, by simp [showEventImageSection, hb]⟩
  · simp [showEventImageSection, bne_iff_ne, bannerImageUrl_ne_empty e]

/-- C9 witness: the all-absent event takes the fallback and hides the section. -/
theorem banner_fallback_behaviour_witness :
    bannerImageUrl emptyEvent = heroFallback ∧
    showEventImageSection emptyEvent = false :=
  (banner_fallback_behaviour emptyEvent).1 rfl

/-- C10: a present ministry reference with an absent `ministryName` still
produces the ORGANIZER row, with the fallback value `Ministry`; and for every
event, the ORGANIZER row appears iff the ministry reference is present,
independently of the name. -/
theorem organizer_row_fallback (relTime : Option String → String) (e : Events)
    (hm : e.fields.ministry.isSome = true)
    (hn : (e.fields.ministry.bind Ministry.fields).bind MinistryFields.ministryName
      = none) :
    ({ label := "ORGANIZER:", value := some "Ministry", shown := true } : Detail)
      ∈ detailRows relTime e ∧
    ∀ e2 : Events,
      ("ORGANIZER:" ∈ (detailRows relTime e2).map Detail.label
        ↔ e2.fields.ministry.isSome = true) := by
  constructor
  · simp [detailRows, detailCandidates, List.mem_filter, hm, hn, jsOrStr, jsTruthyStr]
  · intro e2
    cases hp2 : jsTruthyStr e2.fields.contactPhoneNumber <;>
      cases hl2 : jsTruthyStr e2.fields.location <;>
        cases hm2 : e2.fields.ministry.isSome <;>
          simp [detailRows, detailCandidates, List.filter, hp2, hl2, hm2]

/-- C10 witness: the event whose ministry has no fields carries the fallback
ORGANIZER row. -/
theorem organizer_row_fallback_witness :
    ({ label := "ORGANIZER:", value := some "Ministry", shown := true } : Detail)
      ∈ detailRows (fun _ => "today") ministryOnlyEvent :=
  (organizer_row_fallback (fun _ => "today") ministryOnlyEvent rfl rfl).1

end EventsPage
